/-
  Verification development for the TranscribAIr core pipeline.

  Shallow embedding of:
  - src/core/recorder.py   (AudioRecorder)
  - src/core/transcriber.py (Transcriber)
  - src/core/feedback.py   (FeedbackOrganizer, AnthropicProvider parsing)

  External libraries (sounddevice streams, faster-whisper models, LLM
  clients, json.loads) are modelled as explicit parameters or abstract
  handles; the control flow around them is translated line by line from
  the Python source.
-/
import Mathlib

namespace TranscribAIr

/-! ## Audio recorder (src/core/recorder.py)

A block of audio samples delivered by one stream callback.  Only the
sample values and counts matter to the claims; float32 samples are
modelled as integers. -/

abbrev Block := List Int

/-- Errors raised by `AudioRecorder` methods (`RuntimeError` in the
source, distinguished here by message). -/
inductive RecErr where
  | alreadyRecording   -- "Already recording"
  | notRecording       -- "Not recording"
  | noAudio            -- "No audio data recorded"
  deriving DecidableEq, Repr

/-- Filesystem side effects performed by `stop_recording`. -/
inductive Effect where
  | mkdirParents (path : String)
  | writeWav (path : String) (data : List Int) (sampleRate : Nat)
  deriving DecidableEq, Repr

/-- State of an `AudioRecorder` instance: mirrors the mutable attributes
set in `AudioRecorder.__init__` and mutated by the methods.  `stream`
models `self.stream` (`some ()` when an open `sd.InputStream` is held,
`none` after `self.stream = None`); `drain_running` models whether the
`_process_audio` worker thread is live. -/
structure RecState where
  sample_rate : Nat
  is_recording : Bool
  is_paused : Bool
  audio_queue : List Block
  recorded_frames : List Block
  stream : Option Unit
  drain_running : Bool
  deriving DecidableEq, Repr

/-- `AudioRecorder.__init__(sample_rate=16000)`. -/
def recInit (sample_rate : Nat := 16000) : RecState :=
  { sample_rate := sample_rate
    is_recording := false
    is_paused := false
    audio_queue := []
    recorded_frames := []
    stream := none
    drain_running := false }

/-- `AudioRecorder.start_recording`: raises if already recording, else
resets buffers, opens the stream and starts the drain worker.  (The
`level_callback` branch only feeds the UI meter and is not modelled.) -/
def start_recording (s : RecState) : RecState × Except RecErr Unit :=
  if s.is_recording then (s, .error .alreadyRecording)
  else
    ({ s with
        is_recording := true
        is_paused := false
        recorded_frames := []
        audio_queue := []
        stream := some ()
        drain_running := true }, .ok ())

/-- The `audio_callback` closure inside `start_recording`: a delivered
block is enqueued unless `is_paused`; paused blocks are discarded. -/
def audio_callback (s : RecState) (b : Block) : RecState :=
  if s.is_paused then s
  else { s with audio_queue := s.audio_queue ++ [b] }

/-- One `_process_audio` queue drain: every enqueued block is moved, in
order, from `audio_queue` to `recorded_frames`. -/
def drainAll (s : RecState) : RecState :=
  { s with audio_queue := [], recorded_frames := s.recorded_frames ++ s.audio_queue }

/-- `AudioRecorder.pause_recording`. -/
def pause_recording (s : RecState) : RecState × Except RecErr Unit :=
  if !s.is_recording then (s, .error .notRecording)
  else ({ s with is_paused := true }, .ok ())

/-- `AudioRecorder.resume_recording`. -/
def resume_recording (s : RecState) : RecState × Except RecErr Unit :=
  if !s.is_recording then (s, .error .notRecording)
  else ({ s with is_paused := false }, .ok ())

/-- `AudioRecorder.stop_recording(output_path)`, sequential translation:
precondition check, `is_recording = False`, stream stop/close/None,
worker join, empty-buffer check, then `mkdir(parents=True)` and
`sf.write(..., subtype=PCM_16)`.  The returned list records the
filesystem effects in program order. -/
def stop_recording (s : RecState) (output_path : String) :
    RecState × List Effect × Except RecErr String :=
  if !s.is_recording then (s, [], .error .notRecording)
  else
    -- self.is_recording = False
    let s1 := { s with is_recording := false }
    -- if self.stream: stop, close, self.stream = None
    let s2 := match s1.stream with
      | some _ => { s1 with stream := none }
      | none => s1
    -- self.record_thread.join(timeout=2.0): the worker loop exits once
    -- is_recording is False
    let s3 := { s2 with drain_running := false }
    if s3.recorded_frames = [] then (s3, [], .error .noAudio)
    else
      let audio_data := s3.recorded_frames.flatten
      (s3, [Effect.mkdirParents output_path,
            Effect.writeWav output_path audio_data s3.sample_rate],
       .ok output_path)

/-- `AudioRecorder.cancel_recording`. -/
def cancel_recording (s : RecState) : RecState :=
  if !s.is_recording then s
  else
    let s1 := { s with is_recording := false }
    let s2 := match s1.stream with
      | some _ => { s1 with stream := none }
      | none => s1
    let s3 := { s2 with drain_running := false }
    { s3 with recorded_frames := [] }

/-- Total number of buffered samples (`sum(len(frame) for frame ...)`). -/
def totalFrames (s : RecState) : Nat :=
  (s.recorded_frames.map List.length).sum

/-- `AudioRecorder.get_duration`: `0.0` on an empty buffer, else total
buffered samples divided by the sample rate. -/
def get_duration (s : RecState) : ℚ :=
  if s.recorded_frames = [] then 0
  else (totalFrames s : ℚ) / (s.sample_rate : ℚ)

/-! ### Session events

A recording session, between `start_recording` and `stop_recording`, is
driven by stream-callback deliveries and pause/resume calls.  The drain
worker runs concurrently; we model the nominal schedule in which it has
consumed every enqueued block before the next observation (the
spec flags the stop-timeout truncation case as an open question). -/

inductive Ev where
  | block (b : Block)
  | pause
  | resume
  deriving Repr

/-- Process one session event (callback delivery followed by the drain
worker catching up, or a pause/resume call). -/
def step (s : RecState) (e : Ev) : RecState :=
  match e with
  | .block b => drainAll (audio_callback s b)
  | .pause => (pause_recording s).1
  | .resume => (resume_recording s).1

/-- Process a whole event sequence. -/
def run (s : RecState) (evs : List Ev) : RecState :=
  evs.foldl step s

/-- Specification-side view of a session: the blocks delivered while not
paused, in arrival order, given the initial paused flag. -/
def keptBlocks (paused : Bool) : List Ev → List Block
  | [] => []
  | .block b :: es => if paused then keptBlocks paused es else b :: keptBlocks paused es
  | .pause :: es => keptBlocks true es
  | .resume :: es => keptBlocks false es

/-- The recorder state right after `start_recording` on a fresh
16 kHz recorder. -/
def startedState : RecState := (start_recording (recInit 16000)).1

/-! ## Transcriber (src/core/transcriber.py)

The faster-whisper model object is modelled by its observable behaviour:
a constructed handle carrying the segment list it produces for each
audio path.  `WhisperModel(model_size, device="cpu", compute_type="int8",
download_root=...)` is abstracted as a `construct` parameter giving, for
each size, either the constructed handle or the raised exception. -/

/-- A recognized segment as produced by `model.transcribe` (start offset
in seconds, raw text). -/
structure Segment where
  start : ℚ
  text : String

/-- Abstract loaded faster-whisper model: `transcribeFn path` is the
segment sequence that `self.model.transcribe(path, language="en",
beam_size=5, vad_filter=True)` yields (both `transcribe` and
`transcribe_streaming` pass these same fixed options). -/
structure WhisperModel where
  transcribeFn : String → List Segment

/-- `Transcriber.MODEL_SIZES`. -/
def MODEL_SIZES : List (String × String) :=
  [("tiny", "~75 MB"), ("base", "~140 MB"), ("small", "~460 MB"),
   ("medium", "~1.5 GB"), ("large", "~2.9 GB")]

/-- Mutable state of a `Transcriber` instance. -/
structure TState where
  model : Option WhisperModel
  current_model_size : Option String

/-- `Transcriber.__init__`: no model loaded. -/
def tInit : TState := { model := none, current_model_size := none }

/-- Errors raised by `transcribe` / `transcribe_streaming`. -/
inductive TErr where
  | notLoaded                    -- RuntimeError("No model loaded...")
  | fileNotFound (path : String) -- FileNotFoundError
  deriving DecidableEq, Repr

/-- `Transcriber.load_model(model_size, progress_callback)`.  Returns the
new state, the progress messages reported in order, the number of times
the `WhisperModel` constructor was invoked, and the outcome (`.error`
models the raised exception).  On a constructor failure the assignments
to `self.model` / `self.current_model_size` are never executed, so the
state is returned unchanged. -/
def load_model (st : TState) (model_size : String)
    (construct : String → Except String WhisperModel) :
    TState × List String × Nat × Except String Unit :=
  if (MODEL_SIZES.lookup model_size).isNone then
    (st, [], 0, .error ("Invalid model size. Choose from: " ++
      String.intercalate ", " (MODEL_SIZES.map Prod.fst)))
  else if st.model.isSome && st.current_model_size == some model_size then
    (st, ["Model " ++ model_size ++ " already loaded"], 0, .ok ())
  else
    match construct model_size with
    | .ok m =>
        ({ model := some m, current_model_size := some model_size },
         ["Loading model " ++ model_size ++ "...",
          "Model " ++ model_size ++ " loaded successfully"], 1, .ok ())
    | .error e =>
        (st,
         ["Loading model " ++ model_size ++ "...",
          "Error loading model: " ++ e], 1, .error e)

/-- `Transcriber._format_timestamp(seconds)`: `HH:MM:SS`.  Python float
`//` is floor and `x % m` is `x - m*floor(x/m)`; `int()` of the
non-negative results truncates, i.e. floors. -/
def format_timestamp (seconds : ℚ) : String :=
  let hours := (⌊seconds / 3600⌋).toNat
  let minutes := (⌊(seconds - 3600 * ⌊seconds / 3600⌋) / 60⌋).toNat
  let secs := (⌊seconds - 60 * ⌊seconds / 60⌋⌋).toNat
  let pad2 : Nat → String := fun n =>
    if n < 10 then "0" ++ toString n else toString n
  pad2 hours ++ ":" ++ pad2 minutes ++ ":" ++ pad2 secs

/-- Python `str.strip()`: drop leading and trailing whitespace. -/
def pyStrip (s : String) : String :=
  ⟨((s.data.dropWhile Char.isWhitespace).reverse.dropWhile Char.isWhitespace).reverse⟩

/-- The per-segment line built inside `Transcriber.transcribe`'s loop:
`"[HH:MM:SS] text"` or the stripped text alone
(`segment.text.strip()`). -/
def segLine (include_timestamps : Bool) (seg : Segment) : String :=
  if include_timestamps then
    "[" ++ format_timestamp seg.start ++ "] " ++ pyStrip seg.text
  else
    pyStrip seg.text

/-- `Transcriber.transcribe(audio_path, include_timestamps)`.  `fsExists`
models `os.path.exists`.  Checks the loaded model, then the path, then
runs inference and joins the per-segment lines with newlines. -/
def transcribe (st : TState) (fsExists : String → Bool)
    (audio_path : String) (include_timestamps : Bool) : Except TErr String :=
  match st.model with
  | none => .error .notLoaded
  | some m =>
    if !fsExists audio_path then .error (.fileNotFound audio_path)
    else
      .ok (String.intercalate "\n"
        ((m.transcribeFn audio_path).map (segLine include_timestamps)))

/-- `Transcriber.transcribe_streaming(audio_path, include_timestamps)`:
the sequence of yielded lines, each with its trailing `"\n"`.  The
source performs no `os.path.exists` check here; `fsExists` is accepted
for interface parity but never consulted. -/
def transcribe_streaming (st : TState) (fsExists : String → Bool)
    (audio_path : String) (include_timestamps : Bool) : Except TErr (List String) :=
  match st.model with
  | none => .error .notLoaded
  | some m =>
    .ok ((m.transcribeFn audio_path).map
      (fun seg => segLine include_timestamps seg ++ "\n"))


/-! ## Feedback organization (src/core/feedback.py)

`json.loads` output is modelled by `JValue`; provider backends (network
clients) are modelled by their observable behaviour. -/

/-- A parsed JSON value as returned by `json.loads` (only the shapes the
feedback parser inspects are distinguished; objects are association
lists). -/
inductive JValue where
  | str : String → JValue
  | obj : List (String × JValue) → JValue
  | other : JValue
  deriving Repr

/-- The `OrganizedFeedback` dataclass.  `summary` and
`criterion_feedback` hold whatever `result.get` returned (Python does
not enforce the annotated types). -/
structure OrganizedFeedback where
  rubric_name : String
  criterion_feedback : JValue
  summary : JValue
  raw_transcript : String
  deriving Repr

/-- `str.find(c)`: index of the first occurrence, `-1` if absent. -/
def pyFindChar : List Char → Char → Int
  | [], _ => -1
  | a :: rest, c =>
    if a = c then 0
    else if pyFindChar rest c < 0 then -1 else pyFindChar rest c + 1

/-- `str.rfind(c)`: index of the last occurrence, `-1` if absent. -/
def pyRfindChar : List Char → Char → Int
  | [], _ => -1
  | a :: rest, c =>
    if 0 ≤ pyRfindChar rest c then pyRfindChar rest c + 1
    else if a = c then 0
    else -1

/-- Python slice `s[start:stop]` for `0 ≤ start` (the only case the
parser reaches). -/
def pySlice (cs : List Char) (start stop : Int) : List Char :=
  (cs.drop start.toNat).take (stop.toNat - start.toNat)

/-- The response-handling tail of `AnthropicProvider.organize_feedback`
(the non-JSON-mode backend): given the raw response text and the
behaviour of `json.loads`, locate the first `{` and the last `}`, parse
the slice, and build the `OrganizedFeedback` with `result.get` defaults.
`.ok none` models `return None` (no braces found); `.error` models a
raised exception (`json.loads` failure is caught and re-raised, and
`result.get` on a non-dict raises `AttributeError`). -/
def AnthropicProvider.parse_response (rubric_name transcript : String)
    (content : List Char) (json_loads : List Char → Except String JValue) :
    Except String (Option OrganizedFeedback) :=
  let start := pyFindChar content '{'
  let stop := pyRfindChar content '}' + 1
  if start ≥ 0 ∧ stop > start then
    match json_loads (pySlice content start stop) with
    | .error e => .error e
    | .ok (JValue.obj fields) =>
        .ok (some { rubric_name := rubric_name
                    criterion_feedback :=
                      (fields.lookup "criterion_feedback").getD (JValue.obj [])
                    summary := (fields.lookup "summary").getD (JValue.str "")
                    raw_transcript := transcript })
    | .ok _ => .error "AttributeError"
  else
    .ok none

/-- A rubric criterion (external collaborator data from
src/core/rubric.py, consumed read-only). -/
structure RubricCriterion where
  name : String
  description : String

/-- A rubric (external collaborator data). -/
structure Rubric where
  name : String
  description : String
  criteria : List RubricCriterion

/-- A provider adapter as the orchestrator observes it: the result of
`is_available()` and the outcome its `organize_feedback(transcript,
rubric, detail_level)` method would produce if invoked.  The `Nat` in
the orchestration results below counts those invocations (each one is a
network call). -/
structure ProviderM where
  available : Bool
  organizeFn : String → Rubric → String → Option OrganizedFeedback

/-- State of a `FeedbackOrganizer`: the configured default provider name
(`settings.provider`) and the provider dictionary built in
`__init__`. -/
structure FeedbackOrganizer where
  settings_provider : String
  providers : List (String × ProviderM)

/-- `FeedbackOrganizer.__init__`: the fixed four-entry provider
dictionary. -/
def mkFeedbackOrganizer (settings_provider : String)
    (ollama openai anthropic openrouter : ProviderM) : FeedbackOrganizer :=
  { settings_provider := settings_provider
    providers := [("ollama", ollama), ("openai", openai),
                  ("anthropic", anthropic), ("openrouter", openrouter)] }

/-- `FeedbackOrganizer.get_provider`: `provider_name or
self.settings.provider` (Python `or`: `None` and the empty string both
fall back to the default), then a dictionary lookup. -/
def FeedbackOrganizer.get_provider (org : FeedbackOrganizer)
    (provider_name : Option String) : Option ProviderM :=
  let name := match provider_name with
    | some n => if n = "" then org.settings_provider else n
    | none => org.settings_provider
  org.providers.lookup name

/-- `FeedbackOrganizer.organize_feedback`: resolve the provider, check
`is_available()`, then delegate.  Returns the result together with the
number of provider organize invocations (network calls). -/
def FeedbackOrganizer.organize_feedback (org : FeedbackOrganizer)
    (transcript : String) (rubric : Rubric) (detail_level : String)
    (provider_name : Option String) : Option OrganizedFeedback × Nat :=
  match org.get_provider provider_name with
  | none => (none, 0)
  | some p =>
    if !p.available then (none, 0)
    else (p.organizeFn transcript rubric detail_level, 1)

/-! ## Concrete instances used by witnesses and counterexamples -/

/-- A loaded model producing no segments. -/
def stubModel : WhisperModel := { transcribeFn := fun _ => [] }

/-- A loaded model producing one segment. -/
def oneSegModel : WhisperModel :=
  { transcribeFn := fun _ => [{ start := 0, text := "hi" }] }

/-- A transcriber that has successfully loaded the tiny model. -/
def stStub : TState := { model := some stubModel, current_model_size := some "tiny" }

/-- A transcriber that has successfully loaded the base model. -/
def stOneSeg : TState := { model := some oneSegModel, current_model_size := some "base" }

/-- A filesystem on which no path exists. -/
def fsNone : String → Bool := fun _ => false

/-- A filesystem on which every path exists. -/
def fsAll : String → Bool := fun _ => true

/-- A `WhisperModel` constructor that always raises. -/
def constructDiskFull : String → Except String WhisperModel :=
  fun _ => .error "disk full"

/-- A `WhisperModel` constructor that always succeeds. -/
def constructStub : String → Except String WhisperModel :=
  fun _ => .ok stubModel

/-- An unavailable provider whose organize method would nevertheless
return a result if it were (wrongly) invoked. -/
def unavailableProvider : ProviderM :=
  { available := false
    organizeFn := fun t r _ =>
      some { rubric_name := r.name
             criterion_feedback := JValue.obj []
             summary := JValue.str "S"
             raw_transcript := t } }

/-- A minimal concrete rubric. -/
def sampleRubric : Rubric :=
  { name := "R", description := "desc", criteria := [] }

/-- An organizer whose four providers are all unavailable. -/
def orgAllUnavailable : FeedbackOrganizer :=
  mkFeedbackOrganizer "ollama" unavailableProvider unavailableProvider
    unavailableProvider unavailableProvider

/-- A `json.loads` behaviour returning an empty JSON object. -/
def loadsEmptyObj : List Char → Except String JValue :=
  fun _ => .ok (JValue.obj [])

/-! ### Recorder lemmas -/

/-- Running a session from a state with an empty queue while recording:
the queue stays empty, the recorded frames grow by exactly the blocks
delivered while not paused, and the bookkeeping fields are untouched. -/
lemma run_fields (evs : List Ev) (s : RecState)
    (hq : s.audio_queue = []) (hr : s.is_recording = true) :
    (run s evs).audio_queue = [] ∧
    (run s evs).recorded_frames = s.recorded_frames ++ keptBlocks s.is_paused evs ∧
    (run s evs).is_recording = true ∧
    (run s evs).sample_rate = s.sample_rate ∧
    (run s evs).stream = s.stream ∧
    (run s evs).drain_running = s.drain_running := by
  induction evs generalizing s with
  | nil => simp [run, keptBlocks, hq, hr]
  | cons e es ih =>
    cases e with
    | block b =>
      have hstep : run s (Ev.block b :: es) = run (drainAll (audio_callback s b)) es := rfl
      by_cases hp : s.is_paused
      · have h1 : drainAll (audio_callback s b) =
            { s with audio_queue := [], recorded_frames := s.recorded_frames } := by
          simp [audio_callback, drainAll, hp, hq]
        rw [hstep, h1]
        have := ih { s with audio_queue := [], recorded_frames := s.recorded_frames }
          (by simp) (by simp [hr])
        simpa [keptBlocks, hp] using this
      · have h1 : drainAll (audio_callback s b) =
            { s with audio_queue := [], recorded_frames := s.recorded_frames ++ [b] } := by
          simp [audio_callback, drainAll, hp, hq]
        rw [hstep, h1]
        have := ih { s with audio_queue := [], recorded_frames := s.recorded_frames ++ [b] }
          (by simp) (by simp [hr])
        simpa [keptBlocks, hp, List.append_assoc] using this
    | pause =>
      have hstep : run s (Ev.pause :: es) = run (pause_recording s).1 es := rfl
      have h1 : (pause_recording s).1 = { s with is_paused := true } := by
        simp [pause_recording, hr]
      rw [hstep, h1]
      have := ih { s with is_paused := true } (by simp [hq]) (by simp [hr])
      simpa [keptBlocks] using this
    | resume =>
      have hstep : run s (Ev.resume :: es) = run (resume_recording s).1 es := rfl
      have h1 : (resume_recording s).1 = { s with is_paused := false } := by
        simp [resume_recording, hr]
      rw [hstep, h1]
      have := ih { s with is_paused := false } (by simp [hq]) (by simp [hr])
      simpa [keptBlocks] using this

/-- Frames are append-only: one step never shrinks the buffered total. -/
lemma totalFrames_step_le (s : RecState) (e : Ev) :
    totalFrames s ≤ totalFrames (step s e) := by
  cases e with
  | block b =>
    by_cases hp : s.is_paused <;>
      simp [step, audio_callback, drainAll, totalFrames, hp]
  | pause =>
    by_cases hrec : s.is_recording <;> simp [step, pause_recording, totalFrames, hrec]
  | resume =>
    by_cases hrec : s.is_recording <;> simp [step, resume_recording, totalFrames, hrec]

/-- A step never changes the sample rate. -/
lemma sample_rate_step (s : RecState) (e : Ev) :
    (step s e).sample_rate = s.sample_rate := by
  cases e with
  | block b =>
    by_cases hp : s.is_paused <;>
      simp [step, audio_callback, drainAll, hp]
  | pause =>
    by_cases hrec : s.is_recording <;> simp [step, pause_recording, hrec]
  | resume =>
    by_cases hrec : s.is_recording <;> simp [step, resume_recording, hrec]

/-- `get_duration` always equals buffered samples over the sample rate
(the empty-buffer special case included). -/
lemma get_duration_eq (s : RecState) :
    get_duration s = (totalFrames s : ℚ) / (s.sample_rate : ℚ) := by
  by_cases h : s.recorded_frames = [] <;> simp [get_duration, totalFrames, h]

/-- C1: For every session event sequence, the finalized file written by
`stop_recording` is exactly the concatenation, in arrival order, of the
blocks delivered while not paused (paused blocks excluded), and its
total sample count is the sum of those blocks' sample counts. -/
theorem recorder_file_is_unpaused_concat (evs : List Ev) (path : String)
    (h : keptBlocks false evs ≠ []) :
    (stop_recording (run startedState evs) path).2 =
      ([Effect.mkdirParents path,
        Effect.writeWav path (keptBlocks false evs).flatten 16000],
       Except.ok path) ∧
    ((keptBlocks false evs).flatten).length
      = ((keptBlocks false evs).map List.length).sum := by
  obtain ⟨hq, hf, hrec, hsr, hst, hdr⟩ :=
    run_fields evs startedState (by decide) (by decide)
  constructor
  · have hf' : (run startedState evs).recorded_frames = keptBlocks false evs := by
      simpa [startedState, start_recording, recInit] using hf
    have hstream : (run startedState evs).stream = some () := by
      simpa [startedState, start_recording, recInit] using hst
    have hsr' : (run startedState evs).sample_rate = 16000 := by
      simpa [startedState, start_recording, recInit] using hsr
    simp [stop_recording, hrec, hstream, hf', hsr', h]
  · simp

/-- Witness for C1: a session with a paused block in the middle — the
paused block `[9]` is excluded from the finalized file. -/
theorem recorder_file_is_unpaused_concat_witness :
    (stop_recording
        (run startedState
          [Ev.block [1, 2], Ev.pause, Ev.block [9], Ev.resume, Ev.block [3]])
        "out.wav").2 =
      ([Effect.mkdirParents "out.wav",
        Effect.writeWav "out.wav"
          (keptBlocks false
            [Ev.block [1, 2], Ev.pause, Ev.block [9], Ev.resume, Ev.block [3]]).flatten
          16000],
       Except.ok "out.wav") ∧
    ((keptBlocks false
        [Ev.block [1, 2], Ev.pause, Ev.block [9], Ev.resume, Ev.block [3]]).flatten).length
      = ((keptBlocks false
          [Ev.block [1, 2], Ev.pause, Ev.block [9], Ev.resume, Ev.block [3]]).map
            List.length).sum :=
  recorder_file_is_unpaused_concat
    [Ev.block [1, 2], Ev.pause, Ev.block [9], Ev.resume, Ev.block [3]]
    "out.wav" (by decide)

/-- C8: `stop_recording` while recording with zero buffered blocks fails
with the no-audio error and performs no filesystem effect: neither the
parent-directory creation nor the WAV write is reached. -/
theorem stop_recording_empty_fails_no_write (s : RecState) (path : String)
    (hrec : s.is_recording = true) (hempty : s.recorded_frames = []) :
    (stop_recording s path).2 = ([], Except.error RecErr.noAudio) := by
  cases hstream : s.stream <;>
    simp [stop_recording, hrec, hempty, hstream]

/-- Witness for C8 at a freshly started recorder. -/
theorem stop_recording_empty_fails_no_write_witness :
    (stop_recording startedState "out.wav").2 = ([], Except.error RecErr.noAudio) :=
  stop_recording_empty_fails_no_write startedState "out.wav" (by decide) (by decide)

/-- C10: when `stop_recording` fails with the no-audio error, teardown
has already happened: the recording flag is cleared, the stream is
closed and set to `None`, the drain worker is joined; afterwards
`pause`/`resume`/`stop` report not-recording and a fresh
`start_recording` succeeds. -/
theorem stop_recording_failure_teardown (s : RecState) (path : String)
    (hrec : s.is_recording = true) (hempty : s.recorded_frames = []) :
    (stop_recording s path).2.2 = Except.error RecErr.noAudio ∧
    (stop_recording s path).1.is_recording = false ∧
    (stop_recording s path).1.stream = none ∧
    (stop_recording s path).1.drain_running = false ∧
    (pause_recording (stop_recording s path).1).2 = Except.error RecErr.notRecording ∧
    (resume_recording (stop_recording s path).1).2 = Except.error RecErr.notRecording ∧
    (stop_recording (stop_recording s path).1 path).2.2 = Except.error RecErr.notRecording ∧
    (start_recording (stop_recording s path).1).2 = Except.ok () := by
  cases hstream : s.stream <;>
    simp [stop_recording, start_recording, pause_recording, resume_recording,
      hrec, hempty, hstream]

/-- Witness for C10 at a freshly started recorder. -/
theorem stop_recording_failure_teardown_witness :
    (stop_recording startedState "a/b.wav").2.2 = Except.error RecErr.noAudio ∧
    (stop_recording startedState "a/b.wav").1.is_recording = false ∧
    (stop_recording startedState "a/b.wav").1.stream = none ∧
    (stop_recording startedState "a/b.wav").1.drain_running = false ∧
    (pause_recording (stop_recording startedState "a/b.wav").1).2 =
      Except.error RecErr.notRecording ∧
    (resume_recording (stop_recording startedState "a/b.wav").1).2 =
      Except.error RecErr.notRecording ∧
    (stop_recording (stop_recording startedState "a/b.wav").1 "a/b.wav").2.2 =
      Except.error RecErr.notRecording ∧
    (start_recording (stop_recording startedState "a/b.wav").1).2 = Except.ok () :=
  stop_recording_failure_teardown startedState "a/b.wav" (by decide) (by decide)

/-- C9: `get_duration` equals total buffered samples divided by the
sample rate (0 when nothing is buffered), never consults a clock, is
non-decreasing under every session event, and is unchanged by a block
arriving while paused. -/
theorem get_duration_formula_and_monotone (s : RecState) :
    get_duration s = (totalFrames s : ℚ) / (s.sample_rate : ℚ) ∧
    (∀ e : Ev, get_duration s ≤ get_duration (step s e)) ∧
    (s.is_paused = true → s.audio_queue = [] → ∀ b : Block,
      get_duration (step s (Ev.block b)) = get_duration s) := by
  refine ⟨get_duration_eq s, ?_, ?_⟩
  · intro e
    rw [get_duration_eq, get_duration_eq, sample_rate_step]
    exact div_le_div_of_nonneg_right
      (by exact_mod_cast totalFrames_step_le s e) (by positivity)
  · intro hp hq b
    simp [step, audio_callback, drainAll, hp, hq, get_duration, totalFrames]

/-- Witness for C9: instantiated at a paused mid-session state. -/
theorem get_duration_formula_and_monotone_witness :
    get_duration (step (run startedState [Ev.block [1, 2], Ev.pause]) (Ev.block [3])) =
      get_duration (run startedState [Ev.block [1, 2], Ev.pause]) :=
  (get_duration_formula_and_monotone
      (run startedState [Ev.block [1, 2], Ev.pause])).2.2 (by decide) (by decide) [3]

/-! ### Transcriber theorems -/

/-- C6: for a valid size whose construction succeeds, calling
`load_model` twice in succession from a state not already holding that
size constructs the model exactly once (1 then 0 constructor calls);
the second call leaves the loaded model and recorded size unchanged and
reports already-loaded through the progress callback. -/
theorem load_model_idempotent (st0 : TState) (model_size : String)
    (m : WhisperModel) (construct : String → Except String WhisperModel)
    (hvalid : (MODEL_SIZES.lookup model_size).isNone = false)
    (hnew : (st0.model.isSome && st0.current_model_size == some model_size) = false)
    (hok : construct model_size = .ok m) :
    (load_model st0 model_size construct).2.2.1 = 1 ∧
    (load_model (load_model st0 model_size construct).1 model_size construct).2.2.1 = 0 ∧
    (load_model (load_model st0 model_size construct).1 model_size construct).1 =
      (load_model st0 model_size construct).1 ∧
    (load_model st0 model_size construct).1.current_model_size = some model_size ∧
    (load_model (load_model st0 model_size construct).1 model_size construct).2.1 =
      ["Model " ++ model_size ++ " already loaded"] ∧
    (load_model (load_model st0 model_size construct).1 model_size construct).2.2.2 =
      Except.ok () := by
  simp [load_model, hvalid, hnew, hok]

/-- Witness for C6: a fresh transcriber loading `"base"` twice. -/
theorem load_model_idempotent_witness :
    (load_model tInit "base" constructStub).2.2.1 = 1 ∧
    (load_model (load_model tInit "base" constructStub).1 "base" constructStub).2.2.1 = 0 ∧
    (load_model (load_model tInit "base" constructStub).1 "base" constructStub).1 =
      (load_model tInit "base" constructStub).1 ∧
    (load_model tInit "base" constructStub).1.current_model_size = some "base" ∧
    (load_model (load_model tInit "base" constructStub).1 "base" constructStub).2.1 =
      ["Model " ++ "base" ++ " already loaded"] ∧
    (load_model (load_model tInit "base" constructStub).1 "base" constructStub).2.2.2 =
      Except.ok () :=
  load_model_idempotent tInit "base" stubModel constructStub (by decide) (by decide) rfl

/-- C4 counterexample: with the tiny model already loaded, a failing
load of `"base"` raises, but the engine is NOT left in the Unloaded
state — the previously loaded model and its recorded size survive. -/
theorem load_model_failure_counterexample :
    (load_model stStub "base" constructDiskFull).2.2.2 = Except.error "disk full" ∧
    (load_model stStub "base" constructDiskFull).1.model.isSome = true ∧
    (load_model stStub "base" constructDiskFull).1.current_model_size = some "tiny" ∧
    ¬ ((load_model stStub "base" constructDiskFull).1.model = none ∧
       (load_model stStub "base" constructDiskFull).1.current_model_size = none) := by
  refine ⟨rfl, rfl, rfl, ?_⟩
  rintro ⟨h, -⟩
  exact Option.some_ne_none stubModel h

/-- C4 amended: when model construction fails (for a valid size that is
not already loaded), the error propagates and the engine state is
exactly what it was before the call — a fresh engine remains Unloaded
with no partial model, and a previously loaded model remains loaded. -/
theorem load_model_failure_preserves_state (st : TState) (model_size e : String)
    (construct : String → Except String WhisperModel)
    (hvalid : (MODEL_SIZES.lookup model_size).isNone = false)
    (hnew : (st.model.isSome && st.current_model_size == some model_size) = false)
    (hfail : construct model_size = .error e) :
    load_model st model_size construct =
      (st, ["Loading model " ++ model_size ++ "...",
            "Error loading model: " ++ e], 1, Except.error e) := by
  simp [load_model, hvalid, hnew, hfail]

/-- Witness for C4's amended claim: a fresh engine stays Unloaded. -/
theorem load_model_failure_preserves_state_witness :
    load_model tInit "base" constructDiskFull =
      (tInit, ["Loading model " ++ "base" ++ "...",
               "Error loading model: " ++ "disk full"], 1, Except.error "disk full") :=
  load_model_failure_preserves_state tInit "base" "disk full" constructDiskFull
    (by decide) (by decide) rfl

/-- C5 counterexample: with a model loaded and a non-existent path,
`transcribe` raises `FileNotFoundError` but `transcribe_streaming` does
not — it has no existence check and proceeds to inference. -/
theorem transcribe_streaming_no_exists_check_counterexample :
    transcribe stStub fsNone "missing.wav" false =
      Except.error (TErr.fileNotFound "missing.wav") ∧
    transcribe_streaming stStub fsNone "missing.wav" false = Except.ok [] ∧
    transcribe_streaming stStub fsNone "missing.wav" false ≠
      Except.error (TErr.fileNotFound "missing.wav") := by
  refine ⟨rfl, rfl, ?_⟩
  intro h
  have h' : (Except.ok [] : Except TErr (List String)) =
      Except.error (TErr.fileNotFound "missing.wav") := h
  exact Except.noConfusion h'

/-- C5 amended: both entry points fail with the not-loaded error when no
model is loaded; `transcribe` additionally fails with
`FileNotFoundError` on a missing path before any inference; but
`transcribe_streaming` performs no existence check — it yields the
inference output for any filesystem, identically whatever `os.path.exists`
would say. -/
theorem transcribe_preconditions (m : WhisperModel) (sz : Option String)
    (fs fs2 : String → Bool) (path : String) (ts : Bool) :
    transcribe { model := none, current_model_size := sz } fs path ts =
      Except.error TErr.notLoaded ∧
    transcribe_streaming { model := none, current_model_size := sz } fs path ts =
      Except.error TErr.notLoaded ∧
    (fs path = false →
      transcribe { model := some m, current_model_size := sz } fs path ts =
        Except.error (TErr.fileNotFound path)) ∧
    transcribe_streaming { model := some m, current_model_size := sz } fs path ts =
      Except.ok ((m.transcribeFn path).map (fun seg => segLine ts seg ++ "\n")) ∧
    transcribe_streaming { model := some m, current_model_size := sz } fs path ts =
      transcribe_streaming { model := some m, current_model_size := sz } fs2 path ts := by
  refine ⟨rfl, rfl, ?_, rfl, rfl⟩
  intro h
  simp [transcribe, h]

/-- Witness for C5's amended claim on a missing path. -/
theorem transcribe_preconditions_witness :
    transcribe { model := some stubModel, current_model_size := some "tiny" }
      fsNone "m.wav" false = Except.error (TErr.fileNotFound "m.wav") :=
  (transcribe_preconditions stubModel (some "tiny") fsNone fsAll "m.wav" false).2.2.1 rfl

/-- C2 counterexample: on a one-segment transcription, joining the
streaming lines yields `"hi\n"` while `transcribe` returns `"hi"` — the
streaming lines carry a trailing newline each, so the joined text is
not identical. -/
theorem streaming_join_counterexample :
    Except.map String.join (transcribe_streaming stOneSeg fsAll "a.wav" false) =
      Except.ok "hi\n" ∧
    transcribe stOneSeg fsAll "a.wav" false = Except.ok "hi" ∧
    Except.map String.join (transcribe_streaming stOneSeg fsAll "a.wav" false) ≠
      transcribe stOneSeg fsAll "a.wav" false := by
  refine ⟨rfl, rfl, ?_⟩
  intro h
  have h' : (Except.ok "hi\n" : Except TErr String) = Except.ok "hi" := h
  have hs : ("hi\n" : String) = "hi" := by injection h'
  exact absurd hs (by decide)

/-- C2 amended: streaming is a lazy view of the same segmentation — for
the same loaded model, path and flag there is a single line list `L`
(one line per segment) with `transcribe` returning the lines joined by
newlines and `transcribe_streaming` yielding exactly those lines, each
with one trailing newline appended (so the joined streaming text equals
the transcribe text with an extra newline after each line, not the
identical string). -/
theorem streaming_is_lazy_view_of_transcribe (st : TState) (fs : String → Bool)
    (path : String) (ts : Bool) (hex : fs path = true) :
    (st.model = none ∧
       transcribe st fs path ts = Except.error TErr.notLoaded ∧
       transcribe_streaming st fs path ts = Except.error TErr.notLoaded) ∨
    (∃ L : List String,
       transcribe st fs path ts = Except.ok (String.intercalate "\n" L) ∧
       transcribe_streaming st fs path ts = Except.ok (L.map (fun l => l ++ "\n"))) := by
  cases hm : st.model with
  | none => exact Or.inl ⟨rfl, by simp [transcribe, hm], by simp [transcribe_streaming, hm]⟩

  | some m =>
    refine Or.inr ⟨(m.transcribeFn path).map (segLine ts), ?_, ?_⟩
    · simp [transcribe, hm, hex]
    · simp [transcribe_streaming, hm]

/-- Witness for C2's amended claim. -/
theorem streaming_is_lazy_view_of_transcribe_witness :
    (stOneSeg.model = none ∧
       transcribe stOneSeg fsAll "a.wav" false = Except.error TErr.notLoaded ∧
       transcribe_streaming stOneSeg fsAll "a.wav" false = Except.error TErr.notLoaded) ∨
    (∃ L : List String,
       transcribe stOneSeg fsAll "a.wav" false = Except.ok (String.intercalate "\n" L) ∧
       transcribe_streaming stOneSeg fsAll "a.wav" false =
         Except.ok (L.map (fun l => l ++ "\n"))) :=
  streaming_is_lazy_view_of_transcribe stOneSeg fsAll "a.wav" false rfl

/-! ### Feedback orchestration theorems -/

/-- C3: for every transcript, rubric and detail level, when the provider
name does not resolve — and likewise when the resolved provider reports
unavailable — `organize_feedback` returns `None` (no exception: the
function is total) and the provider organize method is invoked zero
times, so no network call is attempted. -/
theorem organize_feedback_unresolved_no_call (org : FeedbackOrganizer)
    (transcript : String) (rubric : Rubric) (detail_level : String)
    (provider_name : Option String) :
    (org.get_provider provider_name = none →
       org.organize_feedback transcript rubric detail_level provider_name = (none, 0)) ∧
    (∀ p, org.get_provider provider_name = some p → p.available = false →
       org.organize_feedback transcript rubric detail_level provider_name = (none, 0)) := by
  constructor
  · intro h
    simp [FeedbackOrganizer.organize_feedback, h]
  · intro p hp hav
    simp [FeedbackOrganizer.organize_feedback, hp, hav]

/-- Witness for C3: an unknown provider name, and a resolved but
unavailable provider, on the four-entry dictionary. -/
theorem organize_feedback_unresolved_no_call_witness :
    orgAllUnavailable.organize_feedback "t" sampleRubric "detailed" (some "gemini")
      = (none, 0) ∧
    orgAllUnavailable.organize_feedback "t" sampleRubric "detailed" (some "anthropic")
      = (none, 0) :=
  ⟨(organize_feedback_unresolved_no_call orgAllUnavailable "t" sampleRubric "detailed"
      (some "gemini")).1 rfl,
   (organize_feedback_unresolved_no_call orgAllUnavailable "t" sampleRubric "detailed"
      (some "anthropic")).2 unavailableProvider rfl rfl⟩

/-! ### Anthropic response-parsing lemmas -/

/-- `pyFindChar` is `-1` or a valid (non-negative) index. -/
lemma pyFindChar_neg_or_nonneg (cs : List Char) (c : Char) :
    pyFindChar cs c = -1 ∨ 0 ≤ pyFindChar cs c := by
  induction cs with
  | nil => exact Or.inl rfl
  | cons a rest ih =>
    by_cases h : a = c
    · exact Or.inr (by simp [pyFindChar, h])
    · rcases ih with h1 | h1
      · refine Or.inl ?_
        simp only [pyFindChar, if_neg h, h1]
        norm_num
      · refine Or.inr ?_
        simp only [pyFindChar, if_neg h]
        rw [if_neg (by omega : ¬ pyFindChar rest c < 0)]
        omega

/-- A character absent from the text makes `str.find` return `-1`. -/
lemma pyFindChar_of_not_mem {cs : List Char} {c : Char} (h : c ∉ cs) :
    pyFindChar cs c = -1 := by
  induction cs with
  | nil => rfl
  | cons a rest ih =>
    have ha : ¬ a = c := fun e => h (List.mem_cons.mpr (Or.inl e.symm))
    have hr : pyFindChar rest c = -1 :=
      ih (fun m => h (List.mem_cons.mpr (Or.inr m)))
    simp only [pyFindChar, if_neg ha, hr]
    norm_num

/-- A character absent from the text makes `str.rfind` return `-1`. -/
lemma pyRfindChar_of_not_mem {cs : List Char} {c : Char} (h : c ∉ cs) :
    pyRfindChar cs c = -1 := by
  induction cs with
  | nil => rfl
  | cons a rest ih =>
    have ha : ¬ a = c := fun e => h (List.mem_cons.mpr (Or.inl e.symm))
    have hr : pyRfindChar rest c = -1 :=
      ih (fun m => h (List.mem_cons.mpr (Or.inr m)))
    simp only [pyRfindChar, hr, if_neg ha]
    norm_num

/-- `str.find` computes the first occurrence: if `c` sits at index `i`
and at no earlier index, `pyFindChar` returns `i`. -/
lemma pyFindChar_spec (cs : List Char) (c : Char) (i : Nat)
    (h1 : cs[i]? = some c) (h2 : ∀ k, k < i → cs[k]? ≠ some c) :
    pyFindChar cs c = i := by
  induction cs generalizing i with
  | nil => simp at h1
  | cons a rest ih =>
    cases i with
    | zero =>
      have ha : a = c := by simpa using h1
      simp [pyFindChar, ha]
    | succ j =>
      have ha : ¬ a = c := by
        have h0 := h2 0 (Nat.succ_pos j)
        simp only [List.getElem?_cons_zero] at h0
        intro e
        exact h0 (by rw [e])
      have h1' : rest[j]? = some c := by simpa using h1
      have h2' : ∀ k, k < j → rest[k]? ≠ some c := by
        intro k hk
        have := h2 (k + 1) (by omega)
        simpa using this
      have hr := ih j h1' h2'
      simp only [pyFindChar, if_neg ha, hr]
      rw [if_neg (by omega : ¬ ((j : Int) < 0))]
      omega

/-- `str.rfind` computes the last occurrence: if `c` sits at index `j`
and at no later index, `pyRfindChar` returns `j`. -/
lemma pyRfindChar_spec (cs : List Char) (c : Char) (j : Nat)
    (h1 : cs[j]? = some c)
    (h2 : ∀ k, k < cs.length → j < k → cs[k]? ≠ some c) :
    pyRfindChar cs c = j := by
  induction cs generalizing j with
  | nil => simp at h1
  | cons a rest ih =>
    cases j with
    | zero =>
      have ha : a = c := by simpa using h1
      have hnm : c ∉ rest := by
        intro hm
        obtain ⟨k, hk, hke⟩ := List.mem_iff_getElem.mp hm
        have := h2 (k + 1) (by simpa using Nat.succ_lt_succ hk) (Nat.succ_pos k)
        refine this ?_
        simpa [List.getElem?_eq_getElem hk] using congrArg some hke
      have hr : pyRfindChar rest c = -1 := pyRfindChar_of_not_mem hnm
      simp only [pyRfindChar, hr, if_pos ha]
      norm_num
    | succ j' =>
      have h1' : rest[j']? = some c := by simpa using h1
      have h2' : ∀ k, k < rest.length → j' < k → rest[k]? ≠ some c := by
        intro k hk hjk
        have := h2 (k + 1) (by simpa using Nat.succ_lt_succ hk) (by omega)
        simpa using this
      have hr := ih j' h1' h2'
      simp only [pyRfindChar, hr]
      rw [if_pos (by omega : (0 : Int) ≤ (j' : Int))]
      omega

/-- Bridge: when the text has a first `{` at `i` and a last `}` at
`j ≥ i`, the parser behaves exactly as `json.loads` applied to the
inclusive slice from `i` to `j`. -/
lemma parse_response_extract (rn t : String) (content : List Char)
    (json_loads : List Char → Except String JValue) (i j : Nat)
    (hi : content[i]? = some '{')
    (hfirst : ∀ k, k < i → content[k]? ≠ some '{')
    (hj : content[j]? = some '}')
    (hlast : ∀ k, k < content.length → j < k → content[k]? ≠ some '}')
    (hij : i ≤ j) :
    AnthropicProvider.parse_response rn t content json_loads =
      match json_loads ((content.drop i).take (j + 1 - i)) with
      | .error e => .error e
      | .ok (JValue.obj fields) =>
          .ok (some { rubric_name := rn
                      criterion_feedback :=
                        (fields.lookup "criterion_feedback").getD (JValue.obj [])
                      summary := (fields.lookup "summary").getD (JValue.str "")
                      raw_transcript := t })
      | .ok _ => .error "AttributeError" := by
  have hf := pyFindChar_spec content '{' i hi hfirst
  have hr := pyRfindChar_spec content '}' j hj hlast
  have htn1 : ((i : Int)).toNat = i := by omega
  have htn2 : ((j : Int) + 1).toNat = j + 1 := by omega
  simp only [AnthropicProvider.parse_response, hf, hr]
  rw [if_pos ⟨by omega, by omega⟩]
  simp only [pySlice, htn1, htn2]

/-- C7: the non-JSON-mode (Anthropic) parser takes the slice from the
first `{` to the last `}` and parses it as JSON; with no such braces it
returns an absent result without raising; and on a parsed JSON object a
missing `summary` defaults to the empty string while a missing
`criterion_feedback` defaults to the empty mapping. -/
theorem anthropic_brace_extraction_and_defaults (rn t : String)
    (content : List Char) (json_loads : List Char → Except String JValue) :
    (('{' ∉ content ∨ '}' ∉ content) →
      AnthropicProvider.parse_response rn t content json_loads = .ok none) ∧
    (∀ i j : Nat, content[i]? = some '{' → (∀ k, k < i → content[k]? ≠ some '{') →
      content[j]? = some '}' →
      (∀ k, k < content.length → j < k → content[k]? ≠ some '}') → i ≤ j →
      (∀ e, json_loads ((content.drop i).take (j + 1 - i)) = .error e →
        AnthropicProvider.parse_response rn t content json_loads = .error e) ∧
      (∀ fields, json_loads ((content.drop i).take (j + 1 - i)) =
          .ok (JValue.obj fields) →
        AnthropicProvider.parse_response rn t content json_loads =
          .ok (some { rubric_name := rn
                      criterion_feedback :=
                        (fields.lookup "criterion_feedback").getD (JValue.obj [])
                      summary := (fields.lookup "summary").getD (JValue.str "")
                      raw_transcript := t }) ∧
        (fields.lookup "summary" = none →
          ∃ fb, AnthropicProvider.parse_response rn t content json_loads =
              .ok (some fb) ∧ fb.summary = JValue.str "") ∧
        (fields.lookup "criterion_feedback" = none →
          ∃ fb, AnthropicProvider.parse_response rn t content json_loads =
              .ok (some fb) ∧ fb.criterion_feedback = JValue.obj []))) := by
  constructor
  · rintro (h | h)
    · have hf := pyFindChar_of_not_mem h
      simp only [AnthropicProvider.parse_response, hf]
      rw [if_neg (by rintro ⟨h1, -⟩; omega)]
    · have hr := pyRfindChar_of_not_mem h
      simp only [AnthropicProvider.parse_response, hr]
      rw [if_neg (by rintro ⟨h1, h2⟩; omega)]
  · intro i j hi hfirst hj hlast hij
    have hb := parse_response_extract rn t content json_loads i j hi hfirst hj hlast hij
    refine ⟨?_, ?_⟩
    · intro e he
      rw [hb, he]
    · intro fields hfields
      have heq : AnthropicProvider.parse_response rn t content json_loads =
          .ok (some { rubric_name := rn
                      criterion_feedback :=
                        (fields.lookup "criterion_feedback").getD (JValue.obj [])
                      summary := (fields.lookup "summary").getD (JValue.str "")
                      raw_transcript := t }) := by
        rw [hb, hfields]
      refine ⟨heq, ?_, ?_⟩
      · intro hnone
        exact ⟨_, heq, by simp [hnone]⟩
      · intro hnone
        exact ⟨_, heq, by simp [hnone]⟩

/-- Witness for C7 on the text `a{}` with a `json.loads` returning the
empty object: both defaults fire. -/
theorem anthropic_brace_extraction_and_defaults_witness :
    AnthropicProvider.parse_response "R" "T" ['a', '{', '}'] loadsEmptyObj =
      .ok (some { rubric_name := "R"
                  criterion_feedback := JValue.obj []
                  summary := JValue.str ""
                  raw_transcript := "T" }) :=
  (((anthropic_brace_extraction_and_defaults "R" "T" ['a', '{', '}']
      loadsEmptyObj).2 1 2 (by decide) (by decide) (by decide) (by decide)
      (by decide)).2 [] rfl).1

end TranscribAIr
